import Mathlib

/-!
Verification development for the citric client library's protocol/session
layer (JSON-RPC "RemoteControl" sessions, the REST bearer-token session,
the error classifier, and the high-level client's payload shaping).

The repository snapshot available here contains the documentation, the
changelog and the CI configuration of the package, but not the Python
modules implementing the session and client themselves; all operational
definitions below are therefore modelled from the specification document
(and from the behaviour the in-repo documentation and changelog describe),
as shallow executable Lean functions.  Network transports are modelled as
oracles (functions from an outbound envelope to a transport result), and
every operation returns, next to its result and successor state, the list
of envelopes it actually sent, so that claims about the number and shape
of network calls are directly expressible.
-/

namespace Citric

/-- Modelled from the spec: a JSON value, as far as the envelope layer needs
it (strings, integers, arrays, objects and null). -/
inductive JsonVal where
  | str : String → JsonVal
  | num : Int → JsonVal
  | arr : List JsonVal → JsonVal
  | obj : List (String × JsonVal) → JsonVal
  | null : JsonVal

/-- Modelled from the spec: the outbound JSON-RPC 2.0 request object
`\x7bmethod, params, id\x7d`. -/
structure RpcEnvelope where
  method : String
  params : List JsonVal
  id : Nat

/-- Modelled from the spec: the remote error object carried in a JSON-RPC
response (`message`, optional code/data elided). -/
structure RpcError where
  message : String
  deriving DecidableEq, Repr

/-- Modelled from the spec: the inbound JSON-RPC 2.0 response object
`\x7bresult, error, id\x7d`. -/
structure RpcResponse where
  result : Option JsonVal
  error : Option RpcError
  id : Nat

/-- Modelled from the spec: what one transport request/response cycle can
yield — a decoded response body, or a low-level network/timeout failure. -/
inductive TransportResult where
  | response (r : RpcResponse)
  | networkFailure

/-- Modelled from the spec: the Transport component, as an oracle mapping
the outbound envelope to what comes back from the wire. -/
def Transport : Type := RpcEnvelope → TransportResult

/-- Modelled from the spec: the error taxonomy of §7. -/
inductive ErrorKind where
  | AuthenticationFailed
  | SessionExpired
  | UnsupportedMethod
  | RemoteOperationFailed (message : String)
  | TransportFailure
  | InvalidArgument
  | Unauthorized
  | NotFound
  deriving DecidableEq, Repr

/-- Modelled from the spec: the known "no such session" / "invalid session
key" remote error signatures (table-driven, §4.3). -/
def sessionExpiredSignatures : List String :=
  ["Invalid session key", "No such session"]

/-- Modelled from the spec: remote error signatures indicating invalid
credentials. -/
def authFailureSignatures : List String :=
  ["Invalid user name or password", "Invalid username and/or password"]

/-- Modelled from the spec: remote error signatures indicating that the
requested RPC method does not exist on the server. -/
def unsupportedMethodSignatures : List String :=
  ["Method not found", "No such method"]

/-- Modelled from the spec: the pure error classifier of §4.3 for JSON-RPC
error objects — a lookup table plus string matching, no state, no I/O. -/
def classify (e : RpcError) : ErrorKind :=
  if sessionExpiredSignatures.contains e.message then .SessionExpired
  else if authFailureSignatures.contains e.message then .AuthenticationFailed
  else if unsupportedMethodSignatures.contains e.message then .UnsupportedMethod
  else .RemoteOperationFailed e.message

/-- Modelled from the spec: the classifier's HTTP status-code table for the
REST path (§4.3). -/
def classifyStatus (code : Nat) : ErrorKind :=
  if code = 401 then .Unauthorized
  else if code = 404 then .NotFound
  else .RemoteOperationFailed ("HTTP " ++ toString code)

/-- Modelled from the spec: the RPC session's two-state machine — Closed
(no session key) or Open (holding a session key). -/
inductive SessionState where
  | closed
  | opened (key : String)
  deriving DecidableEq, Repr

/-- Modelled from the spec: the session-key value placed first in the params
sequence; a Closed session has no key, which is sent as null and surfaced
as a remote error, not detected locally (§3). -/
def sessionKeyParam : SessionState → JsonVal
  | .closed => .null
  | .opened k => .str k

/-- Modelled from the spec: default authentication-plugin identifier used
by `authenticate` when the caller does not supply one; the in-repo docs
name `Authdb` (the internal database) as the default. -/
def defaultAuthPlugin : String := "Authdb"

/-- Modelled from the spec: unwrapping of one transport result during
`authenticate` — a returned key opens the session, a remote error or a
malformed result leaves it Closed with an authentication error, a network
failure surfaces as `TransportFailure`. -/
def authStep (tr : TransportResult) : Except ErrorKind SessionState :=
  match tr with
  | .networkFailure => .error .TransportFailure
  | .response r =>
    match r.error with
    | some _ => .error .AuthenticationFailed
    | none =>
      match r.result with
      | some (.str key) => .ok (.opened key)
      | _ => .error .AuthenticationFailed

/-- Modelled from the spec: `authenticate(username, password, auth_plugin)`,
§4.2 — calls the remote `get_session_key` method with the credentials and
the plugin identifier (defaulting to `defaultAuthPlugin`) and stores the
returned key on success.  Also returns the list of envelopes sent. -/
def authenticate (t : Transport) (reqId : Nat) (username password : String)
    (authPlugin : Option String) :
    Except ErrorKind SessionState × List RpcEnvelope :=
  let plugin := authPlugin.getD defaultAuthPlugin
  let env : RpcEnvelope :=
    ⟨"get_session_key", [.str username, .str password, .str plugin], reqId⟩
  (authStep (t env), [env])

/-- Modelled from the spec: unwrapping of one transport result during
`invoke` — exactly one of result/error is meaningful; a remote error is
classified, and a `SessionExpired` classification additionally flips the
session to Closed (the stored key is discarded); a network failure
surfaces as `TransportFailure` with the state untouched. -/
def invokeStep (st : SessionState) (tr : TransportResult) :
    Except ErrorKind JsonVal × SessionState :=
  match tr with
  | .networkFailure => (.error .TransportFailure, st)
  | .response r =>
    match r.error with
    | some e =>
      match classify e with
      | .SessionExpired => (.error .SessionExpired, .closed)
      | other => (.error other, st)
    | none => (.ok (r.result.getD .null), st)

/-- Modelled from the spec: `invoke(method_name, *params)`, §4.2 — the
generic dispatch primitive.  Builds an RPC envelope with the stored
session key prepended to the params, sends it via the transport, and
unwraps the response. -/
def invoke (st : SessionState) (t : Transport) (reqId : Nat)
    (rpcMethod : String) (params : List JsonVal) :
    Except ErrorKind JsonVal × SessionState × List RpcEnvelope :=
  let env : RpcEnvelope := ⟨rpcMethod, sessionKeyParam st :: params, reqId⟩
  ((invokeStep st (t env)).1, (invokeStep st (t env)).2, [env])

/-- Modelled from the spec: `Session.call` (changelog 1.0.0) — invokes any
RPC method and hands back the raw JSON-RPC response with no error
classification and no raising on a non-null error field. -/
def call (st : SessionState) (t : Transport) (reqId : Nat)
    (rpcMethod : String) (params : List JsonVal) :
    Except ErrorKind RpcResponse × SessionState × List RpcEnvelope :=
  let env : RpcEnvelope := ⟨rpcMethod, sessionKeyParam st :: params, reqId⟩
  match t env with
  | .networkFailure => (.error .TransportFailure, st, [env])
  | .response r => (.ok r, st, [env])

/-- Modelled from the spec: `close()`, §4.2 — on an Open session, calls
`release_session_key` with the current key and discards the key no matter
what the remote call's outcome is; on a Closed session it is a no-op that
sends nothing.  It never yields an error (its type has no error
component). -/
def close (st : SessionState) (t : Transport) (reqId : Nat) :
    SessionState × List RpcEnvelope :=
  match st with
  | .closed => (.closed, [])
  | .opened k =>
    let env : RpcEnvelope := ⟨"release_session_key", [.str k], reqId⟩
    let _ := t env
    (.closed, [env])

/-- Modelled from the spec: the standard base64 alphabet used for the
file-payload transform (binary content transported as base64 text
embedded in JSON, §3). -/
def b64Chars : List Char :=
  ['A', 'B', 'C', 'D', 'E', 'F', 'G', 'H', 'I', 'J', 'K', 'L', 'M',
   'N', 'O', 'P', 'Q', 'R', 'S', 'T', 'U', 'V', 'W', 'X', 'Y', 'Z',
   'a', 'b', 'c', 'd', 'e', 'f', 'g', 'h', 'i', 'j', 'k', 'l', 'm',
   'n', 'o', 'p', 'q', 'r', 's', 't', 'u', 'v', 'w', 'x', 'y', 'z',
   '0', '1', '2', '3', '4', '5', '6', '7', '8', '9', '+', '/']

/-- Modelled from the spec: the alphabet character for a six-bit value. -/
def encodeChar (n : Nat) : Char := b64Chars.getD n 'A'

/-- Index of a character in a character list (0 when absent). -/
def charIndex : List Char → Char → Nat
  | [], _ => 0
  | x :: xs, c => if x = c then 0 else charIndex xs c + 1

/-- Modelled from the spec: the six-bit value of an alphabet character. -/
def decodeCharVal (c : Char) : Nat := charIndex b64Chars c

/-- Modelled from the spec: base64 encoding of a byte sequence (bytes as
naturals below 256), three bytes to four alphabet characters, with `=`
padding for a trailing group of one or two bytes. -/
def encodeB64 : List Nat → List Char
  | [] => []
  | [a] =>
    [encodeChar (a / 4), encodeChar (a % 4 * 16), '=', '=']
  | [a, b] =>
    [encodeChar (a / 4), encodeChar (a % 4 * 16 + b / 16),
     encodeChar (b % 16 * 4), '=']
  | a :: b :: c :: rest =>
    encodeChar (a / 4) :: encodeChar (a % 4 * 16 + b / 16) ::
    encodeChar (b % 16 * 4 + c / 64) :: encodeChar (c % 64) ::
    encodeB64 rest

/-- Modelled from the spec: base64 decoding of a character sequence back to
bytes, four characters to three bytes, honouring `=` padding in the final
group. -/
def decodeB64 : List Char → List Nat
  | w :: x :: y :: z :: rest =>
    if z = '=' then
      if y = '=' then
        [decodeCharVal w * 4 + decodeCharVal x / 16]
      else
        [decodeCharVal w * 4 + decodeCharVal x / 16,
         decodeCharVal x % 16 * 16 + decodeCharVal y / 4]
    else
      (decodeCharVal w * 4 + decodeCharVal x / 16) ::
      (decodeCharVal x % 16 * 16 + decodeCharVal y / 4) ::
      (decodeCharVal y % 4 * 64 + decodeCharVal z) ::
      decodeB64 rest
  | _ => []

/-- Modelled from the spec: a file argument for an upload operation, as the
tagged variant of §9 — a file path (resolved to the file's bytes) or an
in-memory buffer — wrapped in `Option` so that a caller supplying neither
is representable. -/
inductive FileSource where
  | path (contents : List Nat)
  | buffer (contents : List Nat)
  deriving Repr

/-- Modelled from the spec: the single explicit conversion step resolving a
file argument to a byte sequence before base64 encoding (§9). -/
def resolveFile : FileSource → List Nat
  | .path c => c
  | .buffer c => c

/-- Modelled from the spec: the high-level client's `import_survey` upload
operation — a caller supplying neither a path nor a buffer gets the local
`InvalidArgument` error before any transport call is made (zero envelopes
sent); otherwise the file's bytes are base64 encoded and the session's
generic `invoke` is called. -/
def import_survey (st : SessionState) (t : Transport) (reqId : Nat)
    (file : Option FileSource) (fileType : String) :
    Except ErrorKind JsonVal × SessionState × List RpcEnvelope :=
  match file with
  | none => (.error .InvalidArgument, st, [])
  | some f =>
    invoke st t reqId "import_survey"
      [.str (String.mk (encodeB64 (resolveFile f))), .str fileType]

/-- Field lookup in a JSON object's entry list. -/
def lookupField (fields : List (String × JsonVal)) (k : String) :
    Option JsonVal :=
  match fields with
  | [] => none
  | (k', v) :: rest => if k' = k then some v else lookupField rest k

/-- Modelled from the spec: a decoded uploaded-file object as yielded by
`get_uploaded_file_objects` — filename, metadata, and the content already
decoded to raw binary. -/
structure UploadedFile where
  filename : String
  meta : JsonVal
  content : List Nat

/-- Modelled from the spec: parsing of one per-file record of the
`get_uploaded_files` RPC result, decoding the base64 `content` field to
raw bytes. -/
def parseUploadedFile : String × JsonVal → Option UploadedFile
  | (fname, .obj fields) =>
    match lookupField fields "meta", lookupField fields "content" with
    | some m, some (.str c) => some ⟨fname, m, decodeB64 c.data⟩
    | _, _ => none
  | _ => none

/-- Modelled from the spec: the client's `get_uploaded_files` operation —
forwards to `invoke` and returns the remote's per-file records as-is,
with each file's content still base64-encoded (the caller must decode). -/
def get_uploaded_files (st : SessionState) (t : Transport) (reqId : Nat)
    (surveyId : Int) :
    Except ErrorKind JsonVal × SessionState × List RpcEnvelope :=
  invoke st t reqId "get_uploaded_files" [.num surveyId]

/-- Modelled from the spec: the client's `get_uploaded_file_objects`
operation — forwards to `invoke` and shapes the result into
`UploadedFile` objects whose content has been base64-decoded to raw
binary. -/
def get_uploaded_file_objects (st : SessionState) (t : Transport)
    (reqId : Nat) (surveyId : Int) :
    Except ErrorKind (List UploadedFile) × SessionState × List RpcEnvelope :=
  match invoke st t reqId "get_uploaded_files" [.num surveyId] with
  | (.ok (.obj entries), st', sent) =>
    match entries.mapM parseUploadedFile with
    | some files => (.ok files, st', sent)
    | none => (.error (.RemoteOperationFailed "malformed file record"), st', sent)
  | (.ok _, st', sent) =>
    (.error (.RemoteOperationFailed "malformed file record"), st', sent)
  | (.error k, st', sent) => (.error k, st', sent)

/-- Modelled from the spec: the REST session's two-state machine — Closed
(no bearer token) or Open (holding a bearer token), §4.5. -/
inductive RestState where
  | closed
  | opened (token : String)
  deriving DecidableEq, Repr

/-- Modelled from the spec: what one attempt of a REST request can yield —
a decoded 2xx body, a non-2xx HTTP status code, or a network failure. -/
inductive HttpResult where
  | ok (body : JsonVal)
  | status (code : Nat)
  | networkFailure

/-- Modelled from the spec: an authorized REST request on an Open session
(§4.5).  The server oracle maps the attempt number of this same request
to its outcome.  When the first attempt is rejected with HTTP 401 the
session refreshes its token exactly once and retries the request exactly
once; a second 401 closes the session and surfaces
`AuthenticationFailed`; no third attempt is ever made.  Returns the
result, the successor state, the number of attempts of the request, and
the number of refresh invocations. -/
def restRequest (token : String) (srv : Nat → HttpResult)
    (refreshedToken : String) :
    Except ErrorKind JsonVal × RestState × Nat × Nat :=
  match srv 0 with
  | .ok body => (.ok body, .opened token, 1, 0)
  | .networkFailure => (.error .TransportFailure, .opened token, 1, 0)
  | .status code =>
    if code = 401 then
      match srv 1 with
      | .ok body => (.ok body, .opened refreshedToken, 2, 1)
      | .networkFailure => (.error .TransportFailure, .opened refreshedToken, 2, 1)
      | .status code2 =>
        if code2 = 401 then
          (.error .AuthenticationFailed, .closed, 2, 1)
        else
          (.error (classifyStatus code2), .opened refreshedToken, 2, 1)
    else
      (.error (classifyStatus code), .opened token, 1, 0)

/-! ## Demonstration transports and servers

Concrete oracles used to exercise the operations on the scenarios the
specification spells out. -/

/-- A server that answers `get_session_key` with the session key
`abc123` and any other method with a null result. -/
def demoServer : Transport := fun env =>
  if env.method = "get_session_key" then
    .response ⟨some (.str "abc123"), none, env.id⟩
  else
    .response ⟨some .null, none, env.id⟩

/-- A transport whose every request ends in a network/timeout failure. -/
def downServer : Transport := fun _ => .networkFailure

/-- A server that rejects every call with the remote "Invalid session key"
error. -/
def expiredServer : Transport := fun env =>
  .response ⟨none, some ⟨"Invalid session key"⟩, env.id⟩

/-- A REST server that rejects every attempt of a request with HTTP 401. -/
def alwaysUnauthorized : Nat → HttpResult := fun _ => .status 401

/-- Demonstration raw bytes of an uploaded file. -/
def demoFileBytes : List Nat := [77, 97, 110]

/-- A server answering `get_uploaded_files` with one per-file record whose
content field carries `demoFileBytes` base64-encoded. -/
def demoFilesServer : Transport := fun env =>
  if env.method = "get_uploaded_files" then
    .response ⟨some (.obj [("photo.png", .obj
      [("meta", .null),
       ("content", .str (String.mk (encodeB64 demoFileBytes)))])]), none, env.id⟩
  else
    .response ⟨none, some ⟨"Method not found"⟩, env.id⟩

/-! ## Supporting lemmas -/

/-- Decoding inverts the alphabet table on every six-bit value. -/
theorem decodeCharVal_encodeChar : ∀ n, n < 64 → decodeCharVal (encodeChar n) = n := by decide

/-- No six-bit value encodes to the padding character. -/
theorem encodeChar_ne_pad : ∀ n, n < 64 → encodeChar n ≠ '=' := by decide

/-- Decoding inverts encoding for the base64 file-payload transform, on
every byte sequence. -/
theorem b64_round_trip : ∀ b : List Nat, (∀ x ∈ b, x < 256) → decodeB64 (encodeB64 b) = b
  | [], _ => rfl
  | [a], h => by
    have ha : a < 256 := h a (by simp)
    have h1 : a / 4 < 64 := by omega
    have h2 : a % 4 * 16 < 64 := by omega
    simp only [encodeB64, decodeB64]
    rw [if_pos trivial, if_pos trivial,
      decodeCharVal_encodeChar _ h1, decodeCharVal_encodeChar _ h2]
    simp only [List.cons.injEq, and_true]
    omega
  | [a, b], h => by
    have ha : a < 256 := h a (by simp)
    have hb : b < 256 := h b (by simp)
    have h1 : a / 4 < 64 := by omega
    have h2 : a % 4 * 16 + b / 16 < 64 := by omega
    have h3 : b % 16 * 4 < 64 := by omega
    simp only [encodeB64, decodeB64]
    rw [if_pos trivial, if_neg (encodeChar_ne_pad _ h3),
      decodeCharVal_encodeChar _ h1, decodeCharVal_encodeChar _ h2,
      decodeCharVal_encodeChar _ h3]
    simp only [List.cons.injEq, and_true]
    omega
  | a :: b :: c :: rest, h => by
    have ha : a < 256 := h a (by simp)
    have hb : b < 256 := h b (by simp)
    have hc : c < 256 := h c (by simp)
    have ih := b64_round_trip rest (fun x hx => h x (by simp [hx]))
    have h1 : a / 4 < 64 := by omega
    have h2 : a % 4 * 16 + b / 16 < 64 := by omega
    have h3 : b % 16 * 4 + c / 64 < 64 := by omega
    have h4 : c % 64 < 64 := by omega
    simp only [encodeB64, decodeB64]
    rw [if_neg (encodeChar_ne_pad _ h4),
      decodeCharVal_encodeChar _ h1, decodeCharVal_encodeChar _ h2,
      decodeCharVal_encodeChar _ h3, decodeCharVal_encodeChar _ h4, ih]
    simp only [List.cons.injEq, and_true]
    refine ⟨by omega, by omega, by omega⟩

/-- C1: for every session that authenticated successfully and holds session
key `k`, `invoke` builds an outbound envelope whose method field is the
requested method name and whose params are exactly `k` followed by the
caller's params in order; in particular, after authenticating as
`iamadmin`/`secret` against a server returning session key `abc123`,
`invoke` of `list_surveys` with param `iamadmin` produces the envelope
with method `list_surveys` and params `[abc123, iamadmin]`. -/
theorem claim_C1 (t tInv : Transport) (u pw : String) (ap : Option String)
    (i j : Nat) (k rpcMethod : String) (ps : List JsonVal)
    (hauth : (authenticate t i u pw ap).1 = .ok (.opened k)) :
    (invoke (.opened k) tInv j rpcMethod ps).2.2 =
      [⟨rpcMethod, .str k :: ps, j⟩] ∧
    (authenticate demoServer 0 "iamadmin" "secret" none).1 =
      .ok (.opened "abc123") ∧
    (invoke (.opened "abc123") demoServer 1 "list_surveys"
        [.str "iamadmin"]).2.2 =
      [⟨"list_surveys", [.str "abc123", .str "iamadmin"], 1⟩] :=
  ⟨rfl, rfl, rfl⟩

theorem claim_C1_witness :
    (authenticate demoServer 0 "iamadmin" "secret" none).1 =
      .ok (.opened "abc123") ∧
    (invoke (.opened "abc123") demoServer 1 "list_surveys"
        [.str "iamadmin"]).2.2 =
      [⟨"list_surveys", [.str "abc123", .str "iamadmin"], 1⟩] :=
  ⟨(claim_C1 demoServer demoServer "iamadmin" "secret" none 0 1 "abc123"
      "list_surveys" [.str "iamadmin"] rfl).2.1,
   (claim_C1 demoServer demoServer "iamadmin" "secret" none 0 1 "abc123"
      "list_surveys" [.str "iamadmin"] rfl).2.2⟩

/-- C2: a remote JSON-RPC error whose message matches the invalid-session
signature table is classified `SessionExpired`, and when `invoke` on an
open session receives such an error the session transitions to Closed
while the `SessionExpired` error is raised. -/
theorem claim_C2 (e : RpcError)
    (he : sessionExpiredSignatures.contains e.message = true)
    (k rpcMethod : String) (ps : List JsonVal) (i : Nat) (t : Transport)
    (r : RpcResponse)
    (ht : t ⟨rpcMethod, .str k :: ps, i⟩ = .response r)
    (hr : r.error = some e) :
    classify e = .SessionExpired ∧
    invoke (.opened k) t i rpcMethod ps =
      (.error .SessionExpired, .closed, [⟨rpcMethod, .str k :: ps, i⟩]) := by
  have hc : classify e = .SessionExpired := by
    unfold classify
    rw [if_pos he]
  refine ⟨hc, ?_⟩
  simp only [invoke, sessionKeyParam]
  rw [ht]
  simp [invokeStep, hr, hc]

theorem claim_C2_witness :
    classify ⟨"Invalid session key"⟩ = .SessionExpired ∧
    invoke (.opened "abc123") expiredServer 1 "list_surveys"
        [.str "iamadmin"] =
      (.error .SessionExpired, .closed,
       [⟨"list_surveys", [.str "abc123", .str "iamadmin"], 1⟩]) :=
  claim_C2 ⟨"Invalid session key"⟩ (by decide) "abc123" "list_surveys"
    [.str "iamadmin"] 1 expiredServer
    ⟨none, some ⟨"Invalid session key"⟩, 1⟩ rfl rfl
/-- C3: `close()` is idempotent from the caller's perspective — it never
yields an error (by its type), a first `close` always lands in Closed, a
second `close` is a no-op that sends no further envelope (in particular
no second `release_session_key` call), and on an open session the one
envelope sent is the `release_session_key` call with the current key,
with the key discarded regardless of the transport's outcome (the
transport `t` is arbitrary, including a failing one). -/
theorem claim_C3 (st : SessionState) (t t2 : Transport) (i j : Nat) :
    (close st t i).1 = .closed ∧
    close (close st t i).1 t2 j = (.closed, []) ∧
    ∀ k, st = .opened k →
      (close st t i).2 = [⟨"release_session_key", [.str k], i⟩] := by
  refine ⟨?_, ?_, ?_⟩
  · cases st <;> rfl
  · cases st <;> rfl
  · intro k hk
    subst hk
    rfl

theorem claim_C3_witness :
    (close (.opened "abc123") downServer 0).1 = .closed ∧
    (close (.opened "abc123") downServer 0).2 =
      [⟨"release_session_key", [.str "abc123"], 0⟩] :=
  ⟨(claim_C3 (.opened "abc123") downServer downServer 0 1).1,
   (claim_C3 (.opened "abc123") downServer downServer 0 1).2.2 "abc123" rfl⟩

/-- C5: an upload operation given neither a file path nor an in-memory
buffer yields the local `InvalidArgument` error with zero envelopes sent
(no transport call at all), the session state untouched, and
`InvalidArgument` is a different error kind from every
`RemoteOperationFailed`. -/
theorem claim_C5 (st : SessionState) (t : Transport) (i : Nat)
    (fileType : String) :
    import_survey st t i none fileType = (.error .InvalidArgument, st, []) ∧
    ∀ msg : String,
      (ErrorKind.InvalidArgument : ErrorKind) ≠ .RemoteOperationFailed msg :=
  ⟨rfl, fun _ h => nomatch h⟩

/-- C6: decoding the base64 encoding of any byte buffer yields the buffer
again, for the base64 file-payload transform used on the upload and
download paths. -/
theorem claim_C6 (b : List Nat) (hb : ∀ x ∈ b, x < 256) :
    decodeB64 (encodeB64 b) = b :=
  b64_round_trip b hb

theorem claim_C6_witness :
    (∀ x ∈ [77, 97, 110, 255, 0], x < 256) ∧
    decodeB64 (encodeB64 [77, 97, 110, 255, 0]) = [77, 97, 110, 255, 0] :=
  ⟨by decide, claim_C6 [77, 97, 110, 255, 0] (by decide)⟩

/-- C7: a transport-level network/timeout failure during `invoke` surfaces
as `TransportFailure` and leaves the session Open with its stored key
unmodified. -/
theorem claim_C7 (k rpcMethod : String) (ps : List JsonVal) (i : Nat)
    (t : Transport)
    (ht : t ⟨rpcMethod, .str k :: ps, i⟩ = .networkFailure) :
    invoke (.opened k) t i rpcMethod ps =
      (.error .TransportFailure, .opened k,
       [⟨rpcMethod, .str k :: ps, i⟩]) := by
  simp only [invoke, sessionKeyParam]
  rw [ht]
  rfl

theorem claim_C7_witness :
    invoke (.opened "abc123") downServer 1 "list_surveys" [] =
      (.error .TransportFailure, .opened "abc123",
       [⟨"list_surveys", [.str "abc123"], 1⟩]) :=
  claim_C7 "abc123" "list_surveys" [] 1 downServer rfl

/-- C8: `Session.call` invokes any RPC method and returns the raw JSON-RPC
response unchanged, with no classification and no raising — in
particular, a response carrying a non-null error field is handed back to
the caller as-is, with the session state untouched. -/
theorem claim_C8 (k rpcMethod : String) (ps : List JsonVal) (i : Nat)
    (t : Transport) (r : RpcResponse)
    (ht : t ⟨rpcMethod, .str k :: ps, i⟩ = .response r) :
    call (.opened k) t i rpcMethod ps =
      (.ok r, .opened k, [⟨rpcMethod, .str k :: ps, i⟩]) := by
  simp only [call, sessionKeyParam]
  rw [ht]

theorem claim_C8_witness :
    call (.opened "abc123") expiredServer 1 "copy_survey" [] =
      (.ok ⟨none, some ⟨"Invalid session key"⟩, 1⟩, .opened "abc123",
       [⟨"copy_survey", [.str "abc123"], 1⟩]) :=
  claim_C8 "abc123" "copy_survey" [] 1 expiredServer
    ⟨none, some ⟨"Invalid session key"⟩, 1⟩ rfl

/-- C9: the default authentication-plugin identifier is the string
`Authdb`, and every `authenticate` call made without an explicit plugin
argument sends the outbound `get_session_key` envelope carrying `Authdb`
as its plugin parameter. -/
theorem claim_C9 (t : Transport) (i : Nat) (u pw : String) :
    defaultAuthPlugin = "Authdb" ∧
    (authenticate t i u pw none).2 =
      [⟨"get_session_key", [.str u, .str pw, .str "Authdb"], i⟩] :=
  ⟨rfl, rfl⟩
/-- C4: on the REST path, a request rejected with HTTP 401 triggers the
token refresh exactly once and one retry of the original request
(exactly two attempts in total); if the retried request is rejected with
401 again, the session transitions to Closed and `AuthenticationFailed`
is raised; and for every server behaviour whatsoever the request is
attempted at most twice, so a third attempt is never made. -/
theorem claim_C4 (token refreshedToken : String) (srv : Nat → HttpResult)
    (h0 : srv 0 = .status 401) :
    (restRequest token srv refreshedToken).2.2.1 = 2 ∧
    (restRequest token srv refreshedToken).2.2.2 = 1 ∧
    (∀ srv2 : Nat → HttpResult,
      (restRequest token srv2 refreshedToken).2.2.1 ≤ 2) ∧
    (srv 1 = .status 401 →
      (restRequest token srv refreshedToken).1 =
        .error .AuthenticationFailed ∧
      (restRequest token srv refreshedToken).2.1 = .closed) := by
  have hb : ∀ srv2 : Nat → HttpResult,
      (restRequest token srv2 refreshedToken).2.2.1 ≤ 2 := by
    intro srv2
    cases h : srv2 0 with
    | ok body => simp [restRequest, h]
    | networkFailure => simp [restRequest, h]
    | status code =>
      by_cases hc : code = 401
      · subst hc
        cases h1 : srv2 1 with
        | ok body => simp [restRequest, h, h1]
        | networkFailure => simp [restRequest, h, h1]
        | status code2 =>
          by_cases hc2 : code2 = 401 <;> simp [restRequest, h, h1, hc2]
      · simp [restRequest, h, hc]
  have h2 : (restRequest token srv refreshedToken).2.2.1 = 2 ∧
      (restRequest token srv refreshedToken).2.2.2 = 1 := by
    cases h1 : srv 1 with
    | ok body => simp [restRequest, h0, h1]
    | networkFailure => simp [restRequest, h0, h1]
    | status code2 =>
      by_cases hc2 : code2 = 401 <;> simp [restRequest, h0, h1, hc2]
  refine ⟨h2.1, h2.2, hb, ?_⟩
  intro h1
  simp [restRequest, h0, h1]

theorem claim_C4_witness :
    (restRequest "token1" alwaysUnauthorized "token2").2.2.1 = 2 ∧
    (restRequest "token1" alwaysUnauthorized "token2").2.2.2 = 1 ∧
    (restRequest "token1" alwaysUnauthorized "token2").1 =
      .error .AuthenticationFailed ∧
    (restRequest "token1" alwaysUnauthorized "token2").2.1 = .closed :=
  ⟨(claim_C4 "token1" "token2" alwaysUnauthorized rfl).1,
   (claim_C4 "token1" "token2" alwaysUnauthorized rfl).2.1,
   ((claim_C4 "token1" "token2" alwaysUnauthorized rfl).2.2.2 rfl).1,
   ((claim_C4 "token1" "token2" alwaysUnauthorized rfl).2.2.2 rfl).2⟩

/-- C10: `get_uploaded_files` returns the remote's per-file records with
each content field still base64-encoded exactly as the server sent it,
while `get_uploaded_file_objects` yields file objects whose content has
been decoded back to the raw bytes — only the latter performs the
decode-on-receive step. -/
theorem claim_C10 (k : String) (i : Nat) (sid : Int) (t : Transport)
    (fn : String) (m : JsonVal) (bs : List Nat)
    (hb : ∀ x ∈ bs, x < 256)
    (ht : t ⟨"get_uploaded_files", [.str k, .num sid], i⟩ =
      .response ⟨some (.obj [(fn, .obj
        [("meta", m),
         ("content", .str (String.mk (encodeB64 bs)))])]), none, i⟩) :
    get_uploaded_files (.opened k) t i sid =
      (.ok (.obj [(fn, .obj
        [("meta", m),
         ("content", .str (String.mk (encodeB64 bs)))])]),
       .opened k, [⟨"get_uploaded_files", [.str k, .num sid], i⟩]) ∧
    get_uploaded_file_objects (.opened k) t i sid =
      (.ok [⟨fn, m, bs⟩], .opened k,
       [⟨"get_uploaded_files", [.str k, .num sid], i⟩]) := by
  have hdec : decodeB64 (String.mk (encodeB64 bs)).data = bs :=
    b64_round_trip bs hb
  have hinv : invoke (.opened k) t i "get_uploaded_files" [.num sid] =
      (.ok (.obj [(fn, .obj
        [("meta", m),
         ("content", .str (String.mk (encodeB64 bs)))])]),
       .opened k, [⟨"get_uploaded_files", [.str k, .num sid], i⟩]) := by
    simp only [invoke, sessionKeyParam]
    rw [ht]
    rfl
  have hparse : parseUploadedFile
      (fn, .obj [("meta", m),
        ("content", .str (String.mk (encodeB64 bs)))]) =
      some ⟨fn, m, bs⟩ := by
    simp [parseUploadedFile, lookupField, hdec]
  constructor
  · exact hinv
  · simp only [get_uploaded_file_objects]
    rw [hinv]
    simp [List.mapM, List.mapM.loop, hparse]

theorem claim_C10_witness :
    (∀ x ∈ demoFileBytes, x < 256) ∧
    get_uploaded_files (.opened "abc123") demoFilesServer 1 55 =
      (.ok (.obj [("photo.png", .obj
        [("meta", .null),
         ("content", .str (String.mk (encodeB64 demoFileBytes)))])]),
       .opened "abc123",
       [⟨"get_uploaded_files", [.str "abc123", .num 55], 1⟩]) ∧
    get_uploaded_file_objects (.opened "abc123") demoFilesServer 1 55 =
      (.ok [⟨"photo.png", .null, demoFileBytes⟩], .opened "abc123",
       [⟨"get_uploaded_files", [.str "abc123", .num 55], 1⟩]) :=
  ⟨by decide,
   (claim_C10 "abc123" 1 55 demoFilesServer "photo.png" .null demoFileBytes
      (by decide) rfl).1,
   (claim_C10 "abc123" 1 55 demoFilesServer "photo.png" .null demoFileBytes
      (by decide) rfl).2⟩
end Citric
